import Mathlib

/-!
Shallow embedding of a Rust resource-management service (CRUD translation layer
over a cluster orchestrator) and proofs about its specification claims.

The embedding covers:
* `src/utils/validation.rs` — the pure validation rules;
* `src/error.rs` — the error taxonomy and its classification into
  `(status, message, type)` triples, as performed by `into_response`;
* `src/models/cnpg.rs`, `src/models/kubeflow.rs` — the data model;
* `src/resources/cnpg.rs`, `src/resources/kubeflow.rs` — the per-kind
  resource managers.  Orchestrator calls are modelled by passing the call
  outcome (`KubeResult`) as an explicit argument; side-effect-free spec
  building and merging are direct functional translations.
-/

namespace Spec2Proof

/-! ### JSON values (model of serde_json::Value as used by the service) -/

/-- Model of a `serde_json::Value`.  Objects are association lists in the
order the source writes the fields. -/
inductive Json where
  | null : Json
  | bool (b : Bool) : Json
  | num (n : Int) : Json
  | str (s : String) : Json
  | arr (xs : List Json) : Json
  | obj (fields : List (String × Json)) : Json

/-- Top-level field names of a JSON object. -/
def Json.fieldNames : Json → Option (List String)
  | .obj fields => some (fields.map Prod.fst)
  | _ => none

/-- Whether a JSON object has a top-level field with the given name. -/
def Json.hasField : Json → String → Bool
  | .obj fields, k => fields.any (fun p => p.1 == k)
  | _, _ => false

/-- Serialization of an `Option<String>` field inside a `json!` literal:
`None` becomes JSON null, `Some s` the string. -/
def jsonOfOptStr : Option String → Json
  | none => .null
  | some s => .str s

/-! ### String-keyed maps (model of std::collections::HashMap<String, String>)

A map is carried as an association list; `rmapInsert` overwrites the binding
of an existing key (as `HashMap::insert` does) and `rmapFind?` looks a key
up.  Only key-value observations are meaningful, mirroring the unordered
Rust `HashMap`. -/

/-- Association-list model of `HashMap<String, String>`. -/
abbrev RMap := List (String × String)

/-- Model of `HashMap::insert`: overwrite the binding of `k` if present,
otherwise add it. -/
def rmapInsert : RMap → String → String → RMap
  | [], k, v => [(k, v)]
  | (k0, v0) :: rest, k, v =>
    if k0 = k then (k, v) :: rest else (k0, v0) :: rmapInsert rest k v

/-- Model of `HashMap::get`: the value bound to `k`, if any. -/
def rmapFind? : RMap → String → Option String
  | [], _ => none
  | (k0, v0) :: rest, k => if k0 = k then some v0 else rmapFind? rest k

/-- Model of `if let Some(v) = opt \x7b m.insert(k, v) \x7d`. -/
def rmapInsertOpt (m : RMap) (k : String) : Option String → RMap
  | some v => rmapInsert m k v
  | none => m

/-! ### Error taxonomy (src/error.rs) -/

/-- The fields of `kube::core::ErrorResponse` the service reads. -/
structure ApiErrorResponse where
  code : Nat
  message : String
deriving DecidableEq

/-- Model of `kube::Error`: an API error carrying a status code, an
authentication error, or any other error (carried as its display text). -/
inductive KubeError where
  | api (err : ApiErrorResponse) : KubeError
  | auth (msg : String) : KubeError
  | other (msg : String) : KubeError
deriving DecidableEq

/-- The `AppError` enumeration of src/error.rs. -/
inductive AppError where
  | kube (e : KubeError) : AppError
  | serde (msg : String) : AppError
  | json (msg : String) : AppError
  | notFound (msg : String) : AppError
  | badRequest (msg : String) : AppError
  | internal (msg : String) : AppError
  | validation (msg : String) : AppError
  | config (msg : String) : AppError
  | network (msg : String) : AppError
  | timeout (msg : String) : AppError
deriving DecidableEq

/-- Outcome of one orchestrator call: `Ok` or a `kube::Error`. -/
abbrev KubeResult (α : Type) := Except KubeError α

/-- Model of `AppError::into_response` (src/error.rs lines 29-77): the
`(status, message, error_type)` triple handed to the transport layer. -/
def intoResponse : AppError → Nat × String × String
  | .notFound msg => (404, msg, "NotFound")
  | .badRequest msg => (400, msg, "BadRequest")
  | .validation msg => (400, msg, "Validation")
  | .config msg => (500, msg, "Configuration")
  | .network msg => (503, msg, "Network")
  | .timeout msg => (408, msg, "Timeout")
  | .kube (.api err) =>
    if err.code = 404 then (404, "Resource not found: " ++ err.message, "Kubernetes")
    else if err.code = 400 then (400, "Invalid request: " ++ err.message, "Kubernetes")
    else if err.code = 401 then (401, "Unauthorized: " ++ err.message, "Kubernetes")
    else if err.code = 403 then (403, "Forbidden: " ++ err.message, "Kubernetes")
    else if err.code = 409 then (409, "Conflict: " ++ err.message, "Kubernetes")
    else (500, "Kubernetes error: " ++ err.message, "Kubernetes")
  | .kube (.auth msg) => (401, "Authentication error: " ++ msg, "Kubernetes")
  | .kube (.other msg) => (500, "Kubernetes error: " ++ msg, "Kubernetes")
  | .serde msg => (400, "Serialization error: " ++ msg, "Serialization")
  | .json msg => (400, "JSON error: " ++ msg, "JSON")
  | .internal msg => (500, msg, "Internal")

/-- Whether a manager result is an `AppError::NotFound`. -/
def exceptIsNotFound {α : Type} : Except AppError α → Bool
  | .error (.notFound _) => true
  | _ => false

/-! ### Validation layer (src/utils/validation.rs) -/

/-- The resource-name format error message of `validate_resource_name`. -/
def nameFormatMsg : String :=
  "Resource name must be lowercase alphanumeric characters or \x27-\x27, and cannot start or end with \x27-\x27"

/-- Model of `validate_resource_name` (src/utils/validation.rs lines 4-25).
`String.utf8ByteSize` models Rust `str::len` (a byte length). -/
def validate_resource_name (name : String) : Except AppError Unit :=
  if name = "" then .error (.validation "Resource name cannot be empty")
  else if name.utf8ByteSize > 253 then
    .error (.validation "Resource name cannot exceed 253 characters")
  else
    let is_valid := (name.data.all fun c => c.isLower || c.isDigit || c == '-')
      && !(name.data.head? == some '-')
      && !(name.data.getLast? == some '-')
    if !is_valid then .error (.validation nameFormatMsg)
    else .ok ()

/-- Model of `validate_namespace` (src/utils/validation.rs lines 28-41);
the `?` on `validate_resource_name` is explicit error propagation. -/
def validate_namespace (ns : String) : Except AppError Unit :=
  if ns = "" then .error (.validation "Namespace cannot be empty")
  else
    match validate_resource_name ns with
    | .error e => .error e
    | .ok _ =>
      if ns = "." ∨ ns = ".." then
        .error (.validation "Namespace cannot be \x27.\x27 or \x27..\x27")
      else .ok ()

/-- Drop one leading ASCII sign, as Rust float parsing does. -/
def dropSign : List Char → List Char
  | '+' :: rest => rest
  | '-' :: rest => rest
  | l => l

/-- A non-empty run of ASCII digits, optionally signed: the exponent body
of the Rust `f64` grammar. -/
def signedDigits (l : List Char) : Bool :=
  let l' := dropSign l
  !l'.isEmpty && l'.all Char.isDigit

/-- The optional exponent tail of the Rust `f64` grammar: nothing, or
`e`/`E` followed by an optionally signed non-empty digit run. -/
def expTail : List Char → Bool
  | [] => true
  | c :: rest => (c == 'e' || c == 'E') && signedDigits rest

/-- Whether `f64::from_str` succeeds on the string (the Rust grammar:
optional sign; `inf`, `infinity` or `nan` case-insensitively; or digits
with an optional point and an optional exponent, with at least one
mantissa digit).  Parsing never fails for grammatical input, so success
is a property of the grammar alone. -/
def parseF64Ok (s : String) : Bool :=
  let l := dropSign s.data
  let lower := l.map Char.toLower
  if lower = "inf".data ∨ lower = "infinity".data ∨ lower = "nan".data then true
  else
    let d1 := l.takeWhile Char.isDigit
    let r1 := l.dropWhile Char.isDigit
    match r1 with
    | '.' :: r2 =>
      let d2 := r2.takeWhile Char.isDigit
      let r3 := r2.dropWhile Char.isDigit
      decide (0 < d1.length + d2.length) && expTail r3
    | _ => decide (0 < d1.length) && expTail r1

/-- The recognized memory/storage unit suffixes, in the order the source
lists them. -/
def validSuffixes : List String := ["Ki", "Mi", "Gi", "Ti", "Pi", "Ei", "K", "M", "G", "T", "P", "E"]

/-- Model of Rust `str::ends_with` for these ASCII suffixes. -/
def endsWithSuffix (s suf : String) : Bool := suf.data.isSuffixOf s.data

/-- Model of Rust `str::strip_suffix`: the string minus the suffix when the
suffix matches, else `none`. -/
def stripSuffixOpt (s suf : String) : Option String :=
  if suf.data.isSuffixOf s.data then
    some (String.mk (s.data.take (s.data.length - suf.data.length)))
  else none

/-- Model of `validate_memory_resource` (src/utils/validation.rs lines
68-95): empty check, suffix check via `ends_with`, then `find_map` over
`strip_suffix` and a numeric parse of the remaining prefix. -/
def validate_memory_resource (memory : String) : Except AppError Unit :=
  if memory = "" then .error (.validation "Memory resource cannot be empty")
  else if !(validSuffixes.any fun suf => endsWithSuffix memory suf) then
    .error (.validation "Invalid memory format. Use formats like \x271Gi\x27, \x27500Mi\x27, \x272G\x27")
  else
    match validSuffixes.findSome? (fun suf => stripSuffixOpt memory suf) with
    | none => .error (.validation "Invalid memory format")
    | some numeric_part =>
      if parseF64Ok numeric_part then .ok ()
      else .error (.validation "Invalid memory format. Numeric part must be a valid number")

/-- Model of `validate_storage_size` (src/utils/validation.rs lines
98-100): literally the memory rule. -/
def validate_storage_size (size : String) : Except AppError Unit :=
  validate_memory_resource size

/-! ### Shared metadata (the `ObjectMeta` fields the service reads) -/

/-- The `ObjectMeta` fields the service populates or reads; timestamps are
carried as opaque strings. -/
structure ObjectMeta where
  name : Option String := none
  namespace_ : Option String := none
  creation_timestamp : Option String := none
deriving DecidableEq

/-! ### Database-cluster data model (src/models/cnpg.rs) -/

/-- The `secret` sub-object of `initdb`. -/
structure SecretConfig where
  name : String
deriving DecidableEq

/-- The `initdb` bootstrap configuration. -/
structure InitDBConfig where
  database : String
  owner : String
  secret : SecretConfig
deriving DecidableEq

/-- The `bootstrap` sub-section of a cluster spec. -/
structure BootstrapConfig where
  initdb : Option InitDBConfig
deriving DecidableEq

/-- The `storage` sub-section of a cluster spec. -/
structure StorageConfig where
  size : String
  storage_class : Option String
deriving DecidableEq

/-- The `monitoring` sub-section of a cluster spec. -/
structure MonitoringConfig where
  enable_pod_monitor : Bool
  disable_default_queries : Bool
deriving DecidableEq

/-- The `postgresql` sub-section of a cluster spec. -/
structure PostgreSQLConfig where
  parameters : RMap
deriving DecidableEq

/-- The nested database-cluster specification. -/
structure ClusterSpec where
  instances : Int
  postgresql : PostgreSQLConfig
  bootstrap : Option BootstrapConfig
  storage : Option StorageConfig
  monitoring : Option MonitoringConfig
deriving DecidableEq

/-- A stored cluster object: metadata plus spec. -/
structure Cluster where
  metadata : ObjectMeta
  spec : ClusterSpec
deriving DecidableEq

/-- The flat database-cluster creation request. -/
structure CreateClusterRequest where
  name : String
  namespace_ : Option String
  instances : Int
  database_name : String
  database_owner : String
  secret_name : String
  storage_size : String
  storage_class : Option String
  postgresql_parameters : Option RMap
  monitoring_enabled : Option Bool
deriving DecidableEq

/-- The database-cluster update request; every field optional. -/
structure UpdateClusterRequest where
  instances : Option Int
  postgresql_parameters : Option RMap
  monitoring_enabled : Option Bool
deriving DecidableEq

/-! ### Notebook data model (src/models/kubeflow.rs) -/

/-- One notebook environment variable. -/
structure NotebookEnvVar where
  name : String
  value : String
deriving DecidableEq

/-- The `requests`/`limits` resource maps of the notebook container. -/
structure NotebookResources where
  requests : Option RMap
  limits : Option RMap
deriving DecidableEq

/-- A persistent-volume-claim volume source. -/
structure NotebookPvcSource where
  claim_name : String
deriving DecidableEq

/-- An empty-dir volume source (no fields). -/
structure NotebookEmptyDirSource where
deriving DecidableEq

/-- A pod volume of the notebook template. -/
structure NotebookVolume where
  name : String
  persistent_volume_claim : Option NotebookPvcSource
  empty_dir : Option NotebookEmptyDirSource
deriving DecidableEq

/-- A container volume mount. -/
structure NotebookVolumeMount where
  name : String
  mount_path : String
deriving DecidableEq

/-- A container port. -/
structure NotebookPort where
  container_port : Int
  name : String
  protocol : String
deriving DecidableEq

/-- The notebook primary container. -/
structure NotebookContainer where
  name : String
  image : String
  resources : Option NotebookResources
  env : Option (List NotebookEnvVar)
  volume_mounts : Option (List NotebookVolumeMount)
  ports : Option (List NotebookPort)
deriving DecidableEq

/-- The pod spec of the notebook template. -/
structure NotebookPodSpec where
  containers : List NotebookContainer
  volumes : Option (List NotebookVolume)
  service_account_name : Option String
deriving DecidableEq

/-- The notebook pod template. -/
structure NotebookTemplate where
  spec : NotebookPodSpec
deriving DecidableEq

/-- The notebook specification: one pod template. -/
structure NotebookSpec where
  template : NotebookTemplate
deriving DecidableEq

/-- A stored notebook object: metadata plus spec. -/
structure Notebook where
  metadata : ObjectMeta
  spec : NotebookSpec
deriving DecidableEq

/-- Model of `kube::core::ListMeta` (only `resourceVersion` kept). -/
structure ListMeta where
  resource_version : Option String
deriving DecidableEq

/-- Model of the orchestrator list envelope `ObjectList<Notebook>`. -/
structure NotebookList where
  metadata : ListMeta
  items : List Notebook
deriving DecidableEq

/-- The flat notebook creation request. -/
structure CreateNotebookRequest where
  name : String
  namespace_ : Option String
  image : String
  cpu_request : Option String
  cpu_limit : Option String
  memory_request : Option String
  memory_limit : Option String
  gpu_limit : Option String
  workspace_volume_size : Option String
  workspace_volume_mount : Option String
  environment_variables : Option RMap
  service_account : Option String
deriving DecidableEq

/-- The notebook update request; every field optional. -/
structure UpdateNotebookRequest where
  image : Option String
  cpu_request : Option String
  cpu_limit : Option String
  memory_request : Option String
  memory_limit : Option String
  gpu_limit : Option String
  environment_variables : Option RMap
deriving DecidableEq

/-! ### Serialization of notebook objects (serde derives on the models)

`serde_json::to_value` on a `Notebook` yields the raw stored object:
`apiVersion`/`kind` from the custom-resource derive, then metadata and
spec with the field renames of src/models/kubeflow.rs; `Option` fields
annotated `skip_serializing_if = Option::is_none` are omitted when absent. -/

/-- Append a field only when the optional value is present (models
`skip_serializing_if = "Option::is_none"`). -/
def optField (k : String) : Option Json → List (String × Json)
  | none => []
  | some j => [(k, j)]

/-- Serialize a string-to-string map. -/
def rmapToJson (m : RMap) : Json :=
  .obj (m.map fun p => (p.1, .str p.2))

/-- Serialize `ObjectMeta` (present fields only). -/
def objectMetaToJson (m : ObjectMeta) : Json :=
  .obj (optField "creationTimestamp" (m.creation_timestamp.map .str)
    ++ optField "name" (m.name.map .str)
    ++ optField "namespace" (m.namespace_.map .str))

/-- Serialize `NotebookResources`. -/
def notebookResourcesToJson (r : NotebookResources) : Json :=
  .obj (optField "requests" (r.requests.map rmapToJson)
    ++ optField "limits" (r.limits.map rmapToJson))

/-- Serialize one environment variable. -/
def envVarToJson (e : NotebookEnvVar) : Json :=
  .obj [("name", .str e.name), ("value", .str e.value)]

/-- Serialize one volume mount. -/
def volumeMountToJson (v : NotebookVolumeMount) : Json :=
  .obj [("name", .str v.name), ("mountPath", .str v.mount_path)]

/-- Serialize one container port. -/
def portToJson (p : NotebookPort) : Json :=
  .obj [("containerPort", .num p.container_port), ("name", .str p.name), ("protocol", .str p.protocol)]

/-- Serialize one pod volume. -/
def volumeToJson (v : NotebookVolume) : Json :=
  .obj ([("name", .str v.name)]
    ++ optField "persistentVolumeClaim"
      (v.persistent_volume_claim.map fun s => .obj [("claimName", .str s.claim_name)])
    ++ optField "emptyDir" (v.empty_dir.map fun _ => .obj []))

/-- Serialize the notebook container. -/
def containerToJson (c : NotebookContainer) : Json :=
  .obj ([("name", .str c.name), ("image", .str c.image)]
    ++ optField "resources" (c.resources.map notebookResourcesToJson)
    ++ optField "env" (c.env.map fun es => .arr (es.map envVarToJson))
    ++ optField "volumeMounts" (c.volume_mounts.map fun vs => .arr (vs.map volumeMountToJson))
    ++ optField "ports" (c.ports.map fun ps => .arr (ps.map portToJson)))

/-- Serialize the pod spec. -/
def podSpecToJson (p : NotebookPodSpec) : Json :=
  .obj ([("containers", .arr (p.containers.map containerToJson))]
    ++ optField "volumes" (p.volumes.map fun vs => .arr (vs.map volumeToJson))
    ++ optField "serviceAccountName" (p.service_account_name.map .str))

/-- Serialize the notebook spec. -/
def notebookSpecToJson (s : NotebookSpec) : Json :=
  .obj [("template", .obj [("spec", podSpecToJson s.template.spec)])]

/-- Serialize a whole stored notebook object, as `serde_json::to_value`
does for the custom resource. -/
def notebookToJson (nb : Notebook) : Json :=
  .obj [("apiVersion", .str "kubeflow.org/v1"), ("kind", .str "Notebook"),
    ("metadata", objectMetaToJson nb.metadata), ("spec", notebookSpecToJson nb.spec)]

/-- Serialize `ListMeta` (present fields only). -/
def listMetaToJson (m : ListMeta) : Json :=
  .obj (optField "resourceVersion" (m.resource_version.map .str))

/-- Serialize the orchestrator list envelope of notebooks, as
`serde_json::to_value` does for an `ObjectList<Notebook>`. -/
def notebookListToJson (l : NotebookList) : Json :=
  .obj [("metadata", listMetaToJson l.metadata),
    ("items", .arr (l.items.map notebookToJson))]

/-! ### Database-cluster manager (src/resources/cnpg.rs) -/

/-- The not-found message of the cnpg get/update/delete paths. -/
def cnpgNotFoundMsg (name ns : String) : String :=
  "CNPG cluster \x27" ++ name ++ "\x27 not found in namespace \x27" ++ ns ++ "\x27"

/-- The cluster spec `CnpgManager::create` builds from a request
(src/resources/cnpg.rs lines 20-42). -/
def clusterSpecOfRequest (request : CreateClusterRequest) : ClusterSpec :=
  { instances := request.instances
    postgresql := { parameters := request.postgresql_parameters.getD [] }
    bootstrap :=
      some { initdb := some { database := request.database_name, owner := request.database_owner, secret := { name := request.secret_name } } }
    storage := some { size := request.storage_size, storage_class := request.storage_class }
    monitoring := request.monitoring_enabled.map fun enabled =>
      { enable_pod_monitor := enabled, disable_default_queries := false } }

/-- The cluster object `CnpgManager::create` submits to the orchestrator
(src/resources/cnpg.rs lines 44-51). -/
def cnpgClusterOfRequest (request : CreateClusterRequest) : Cluster :=
  { metadata := { name := some request.name, namespace_ := some (request.namespace_.getD "default") }
    spec := clusterSpecOfRequest request }

/-- Model of `CnpgManager::create` (src/resources/cnpg.rs lines 17-62):
build the cluster, submit it, and on success return the acknowledgement
object the source builds with `json!`. -/
def cnpgCreate (request : CreateClusterRequest)
    (orchCreate : Cluster → KubeResult Cluster) : Except AppError Json :=
  match orchCreate (cnpgClusterOfRequest request) with
  | .error e => .error (.kube e)
  | .ok created =>
    .ok (.obj [("message", .str "CNPG cluster created successfully"),
      ("name", jsonOfOptStr created.metadata.name),
      ("namespace", jsonOfOptStr created.metadata.namespace_),
      ("resource_type", .str "cnpg-cluster")])

/-- Model of `CnpgManager::get` (src/resources/cnpg.rs lines 64-77):
translate an orchestrator 404 into `NotFound`, pass other errors through
as `Kube`. -/
def cnpgGet (ns name : String) (outcome : KubeResult Cluster) : Except AppError Cluster :=
  match outcome with
  | .ok cluster => .ok cluster
  | .error (.api err) =>
    if err.code = 404 then .error (.notFound (cnpgNotFoundMsg name ns))
    else .error (.kube (.api err))
  | .error e => .error (.kube e)

/-- The per-item projection of `CnpgManager::list`. -/
def cnpgListItemJson (cluster : Cluster) : Json :=
  .obj [("name", jsonOfOptStr cluster.metadata.name),
    ("namespace", jsonOfOptStr cluster.metadata.namespace_),
    ("instances", .num cluster.spec.instances),
    ("creation_timestamp", jsonOfOptStr cluster.metadata.creation_timestamp),
    ("resource_type", .str "cnpg-cluster")]

/-- Model of `CnpgManager::list` (src/resources/cnpg.rs lines 79-102):
on success, the normalized envelope with the projected items and their
count. -/
def cnpgList (outcome : KubeResult (List Cluster)) : Except AppError Json :=
  match outcome with
  | .error e => .error (.kube e)
  | .ok items =>
    .ok (.obj [("resources", .arr (items.map cnpgListItemJson)),
      ("count", .num items.length),
      ("resource_type", .str "cnpg-clusters")])

/-- The in-place mutation block of `CnpgManager::update`
(src/resources/cnpg.rs lines 124-137): overlay only the request fields
that are present. -/
def cnpgApplyUpdate (cluster : Cluster) (request : UpdateClusterRequest) : Cluster :=
  let c1 := match request.instances with
    | some instances => { cluster with spec.instances := instances }
    | none => cluster
  let c2 := match request.postgresql_parameters with
    | some parameters => { c1 with spec.postgresql.parameters := parameters }
    | none => c1
  match request.monitoring_enabled with
  | some monitoring_enabled =>
    { c2 with spec.monitoring := some { enable_pod_monitor := monitoring_enabled, disable_default_queries := false } }
  | none => c2

/-- Model of `CnpgManager::update` (src/resources/cnpg.rs lines 104-147):
fetch, overlay present fields, write the mutated object back with
`replace`, and acknowledge. -/
def cnpgUpdate (ns name : String) (getOutcome : KubeResult Cluster)
    (request : UpdateClusterRequest)
    (orchReplace : Cluster → KubeResult Cluster) : Except AppError Json :=
  match getOutcome with
  | .error (.api err) =>
    if err.code = 404 then .error (.notFound (cnpgNotFoundMsg name ns))
    else .error (.kube (.api err))
  | .error e => .error (.kube e)
  | .ok cluster =>
    match orchReplace (cnpgApplyUpdate cluster request) with
    | .error e => .error (.kube e)
    | .ok updated =>
      .ok (.obj [("message", .str "CNPG cluster updated successfully"),
        ("name", jsonOfOptStr updated.metadata.name),
        ("namespace", jsonOfOptStr updated.metadata.namespace_),
        ("resource_type", .str "cnpg-cluster")])

/-- Model of `CnpgManager::delete` (src/resources/cnpg.rs lines 149-165):
translate an orchestrator 404 into `NotFound`, else acknowledge. -/
def cnpgDelete (ns name : String) (outcome : KubeResult Unit) : Except AppError Json :=
  match outcome with
  | .ok _ =>
    .ok (.obj [("message", .str ("CNPG cluster \x27" ++ name ++ "\x27 deleted successfully")),
      ("resource_type", .str "cnpg-cluster")])
  | .error (.api err) =>
    if err.code = 404 then .error (.notFound (cnpgNotFoundMsg name ns))
    else .error (.kube (.api err))
  | .error e => .error (.kube e)

/-! ### Notebook manager (src/resources/kubeflow.rs) -/

/-- Conversion of an environment-variable map into the env list, as the
`env_map.iter().map(...).collect()` of the source. -/
def envVarsOfMap (m : RMap) : List NotebookEnvVar :=
  m.map fun p => { name := p.1, value := p.2 }

/-- Model of `KubeflowManager::build_notebook_spec` (src/resources/
kubeflow.rs lines 111-206). -/
def buildNotebookSpec (request : CreateNotebookRequest) : NotebookSpec :=
  let requests0 := rmapInsertOpt [] "cpu" request.cpu_request
  let limits0 := rmapInsertOpt [] "cpu" request.cpu_limit
  let requests1 := rmapInsertOpt requests0 "memory" request.memory_request
  let limits1 := rmapInsertOpt limits0 "memory" request.memory_limit
  let limits2 := rmapInsertOpt limits1 "nvidia.com/gpu" request.gpu_limit
  let notebook_resources :=
    if !requests1.isEmpty || !limits2.isEmpty then
      some { requests := if requests1.isEmpty then none else some requests1
             limits := if limits2.isEmpty then none else some limits2 }
    else (none : Option NotebookResources)
  let env_vars := request.environment_variables.map envVarsOfMap
  let mountsAndVolumes :=
    if request.workspace_volume_size.isSome then
      let mount_path := request.workspace_volume_mount.getD "/home/jovyan/work"
      (some [({ name := request.name ++ "-workspace", mount_path := mount_path } : NotebookVolumeMount)],
        some [({ name := request.name ++ "-workspace", persistent_volume_claim := some { claim_name := request.name ++ "-workspace-pvc" }, empty_dir := none } : NotebookVolume)])
    else (none, none)
  let ports : List NotebookPort := [{ container_port := 8888, name := "notebook-port", protocol := "TCP" }]
  let container : NotebookContainer :=
    { name := "notebook"
      image := request.image
      resources := notebook_resources
      env := env_vars
      volume_mounts := mountsAndVolumes.1
      ports := some ports }
  { template := { spec := { containers := [container], volumes := mountsAndVolumes.2, service_account_name := request.service_account } } }

/-- Model of `Notebook::new(name, spec)`: metadata holding only the name. -/
def notebookNew (name : String) (spec : NotebookSpec) : Notebook :=
  { metadata := { name := some name }, spec := spec }

/-- Model of `KubeflowManager::create_workspace_pvc` (src/resources/
kubeflow.rs lines 278-312): the orchestrator outcome is swallowed — a
failed claim creation is logged and creation proceeds.  (The only error
path of the source, a `serde_json::from_value` failure on the fixed
claim template, cannot occur for the modelled payload.) -/
def createWorkspacePvc (outcome : KubeResult Unit) : Except AppError Unit :=
  match outcome with
  | .ok _ => .ok ()
  | .error _ => .ok ()

/-- Model of `KubeflowManager::delete_workspace_pvc` (src/resources/
kubeflow.rs lines 314-327): any failure is swallowed. -/
def deleteWorkspacePvc (outcome : KubeResult Unit) : Except AppError Unit :=
  match outcome with
  | .ok _ => .ok ()
  | .error _ => .ok ()

/-- Model of `KubeflowManager::create` (src/resources/kubeflow.rs lines
25-44): best-effort claim provisioning when a workspace size is present,
then creation; on success the RAW created object is serialized and
returned as-is. -/
def kubeflowCreate (request : CreateNotebookRequest)
    (pvcOutcome : KubeResult Unit)
    (orchCreate : Notebook → KubeResult Notebook) : Except AppError Json :=
  let pvcStep : Except AppError Unit :=
    if request.workspace_volume_size.isSome then createWorkspacePvc pvcOutcome else .ok ()
  match pvcStep with
  | .error e => .error e
  | .ok _ =>
    match orchCreate (notebookNew request.name (buildNotebookSpec request)) with
    | .ok created => .ok (notebookToJson created)
    | .error e => .error (.kube e)

/-- Model of `KubeflowManager::get` (src/resources/kubeflow.rs lines
46-53): every orchestrator error, a 404 included, is passed through as
`Kube`. -/
def kubeflowGet (outcome : KubeResult Notebook) : Except AppError Notebook :=
  match outcome with
  | .ok notebook => .ok notebook
  | .error e => .error (.kube e)

/-- Model of `KubeflowManager::list` (src/resources/kubeflow.rs lines
55-62): on success the orchestrator list envelope is serialized and
returned as-is. -/
def kubeflowList (outcome : KubeResult NotebookList) : Except AppError Json :=
  match outcome with
  | .ok notebooks => .ok (notebookListToJson notebooks)
  | .error e => .error (.kube e)

/-- Collapse of an empty merged map to an absent one, as the source's
`if … is_empty … \x7b None \x7d else \x7b Some(…) \x7d`. -/
def emptyToNone (m : RMap) : Option RMap :=
  if m.isEmpty then none else some m

/-- The merged requests map of `build_update_spec`: the existing map
(`unwrap_or_default`) with the present request-side fields inserted in
source order (`cpu` then `memory`). -/
def mergedRequests (container : NotebookContainer) (request : UpdateNotebookRequest) : RMap :=
  rmapInsertOpt
    (rmapInsertOpt ((container.resources.bind NotebookResources.requests).getD []) "cpu" request.cpu_request)
    "memory" request.memory_request

/-- The merged limits map of `build_update_spec`: the existing map
(`unwrap_or_default`) with the present limit-side fields inserted in
source order (`cpu`, `memory`, then `nvidia.com/gpu`). -/
def mergedLimits (container : NotebookContainer) (request : UpdateNotebookRequest) : RMap :=
  rmapInsertOpt
    (rmapInsertOpt
      (rmapInsertOpt ((container.resources.bind NotebookResources.limits).getD []) "cpu" request.cpu_limit)
      "memory" request.memory_limit)
    "nvidia.com/gpu" request.gpu_limit

/-- The per-container overlay of `KubeflowManager::build_update_spec`
(src/resources/kubeflow.rs lines 215-273): replace the image when
present, merge the resource maps when any resource field is present, and
replace the whole env list when present. -/
def updateContainer (container : NotebookContainer) (request : UpdateNotebookRequest) : NotebookContainer :=
  let c1 := match request.image with
    | some image => { container with image := image }
    | none => container
  let c2 :=
    if request.cpu_request.isSome || request.cpu_limit.isSome
        || request.memory_request.isSome || request.memory_limit.isSome
        || request.gpu_limit.isSome then
      { c1 with resources := some { requests := emptyToNone (mergedRequests c1 request), limits := emptyToNone (mergedLimits c1 request) } }
    else c1
  match request.environment_variables with
  | some env_vars => { c2 with env := some (envVarsOfMap env_vars) }
  | none => c2

/-- Model of `KubeflowManager::build_update_spec` (src/resources/
kubeflow.rs lines 208-276): clone the existing spec and overlay, on the
first container only, the fields present in the update request. -/
def buildUpdateSpec (existing_spec : NotebookSpec) (request : UpdateNotebookRequest) : NotebookSpec :=
  match existing_spec.template.spec.containers with
  | [] => existing_spec
  | container :: rest =>
    { existing_spec with template.spec.containers := updateContainer container request :: rest }

/-- Model of `KubeflowManager::delete` (src/resources/kubeflow.rs lines
92-107): on success, best-effort deletion of the workspace claim (result
ignored) and a small status object; errors, a 404 included, are passed
through as `Kube`. -/
def kubeflowDelete (ns name : String) (deleteOutcome : KubeResult Unit)
    (pvcOutcome : KubeResult Unit) : Except AppError Json :=
  match deleteOutcome with
  | .ok _ =>
    let _ := deleteWorkspacePvc pvcOutcome
    .ok (.obj [("status", .str "deleted"), ("name", .str name), ("namespace", .str ns)])
  | .error e => .error (.kube e)

/-! ### Observation helpers and concrete inputs -/

/-- The effective binding of key `k` in a container resource-requests
map (`None` maps observe as empty). -/
def containerRequestsFind (c : NotebookContainer) (k : String) : Option String :=
  match c.resources with
  | none => none
  | some r =>
    match r.requests with
    | none => none
    | some m => rmapFind? m k

/-- The effective binding of key `k` in a container resource-limits map. -/
def containerLimitsFind (c : NotebookContainer) (k : String) : Option String :=
  match c.resources with
  | none => none
  | some r =>
    match r.limits with
    | none => none
    | some m => rmapFind? m k

/-- An orchestrator create call that stores and returns the submitted
cluster unchanged. -/
def echoCluster : Cluster → KubeResult Cluster := fun c => .ok c

/-- An orchestrator create call that stores and returns the submitted
notebook unchanged. -/
def echoNotebook : Notebook → KubeResult Notebook := fun nb => .ok nb

/-- The Scenario A database-cluster create request of the spec. -/
def cnpgReqA : CreateClusterRequest :=
  { name := "pg1", namespace_ := none, instances := 3, database_name := "app",
    database_owner := "app_owner", secret_name := "s", storage_size := "10Gi",
    storage_class := none, postgresql_parameters := none, monitoring_enabled := none }

/-- A minimal notebook create request (no optional field present). -/
def nbReqA : CreateNotebookRequest :=
  { name := "nb1", namespace_ := none, image := "jupyter-base", cpu_request := none,
    cpu_limit := none, memory_request := none, memory_limit := none, gpu_limit := none,
    workspace_volume_size := none, workspace_volume_mount := none,
    environment_variables := none, service_account := none }

/-- A notebook get outcome where the orchestrator reports not-found. -/
def nbGet404 : KubeResult Notebook := .error (.api { code := 404, message := "notebooks.kubeflow.org nb1 not found" })

/-- An empty orchestrator notebook list. -/
def nbList0 : NotebookList := { metadata := { resource_version := none }, items := [] }

/-- The existing container of the Scenario C witness: cpu request and
limit present. -/
def nbContC : NotebookContainer :=
  { name := "notebook", image := "img1",
    resources := some { requests := some [("cpu", "500m")], limits := some [("cpu", "1")] },
    env := none, volume_mounts := none, ports := none }

/-- The existing notebook spec of the Scenario C witness. -/
def nbSpecC : NotebookSpec :=
  { template := { spec := { containers := [nbContC], volumes := none, service_account_name := none } } }

/-- The Scenario C update request: only `memory_limit` supplied. -/
def nbUpdC : UpdateNotebookRequest :=
  { image := none, cpu_request := none, cpu_limit := none, memory_request := none,
    memory_limit := some "4Gi", gpu_limit := none, environment_variables := none }

/-- The spec-side well-formedness predicate for memory/storage strings,
written from the words of the spec for comparison with the code-side
`validate_memory_resource`: a numeric prefix accepted by the float parser
followed by one of the recognized unit suffixes. -/
def memoryStringWellFormed (s : String) : Prop :=
  ∃ n suf, suf ∈ validSuffixes ∧ parseF64Ok n = true ∧ s = n ++ suf

/-! ### Map lemmas -/

/-- Looking up the key just inserted yields the inserted value. -/
theorem rmapFind?_insert_self (m : RMap) (k v : String) :
    rmapFind? (rmapInsert m k v) k = some v := by
  induction m with
  | nil => simp [rmapInsert, rmapFind?]
  | cons p rest ih =>
    obtain ⟨k0, v0⟩ := p
    by_cases h : k0 = k
    · simp [rmapInsert, rmapFind?, h]
    · simp [rmapInsert, rmapFind?, h, ih]

/-- Inserting one key leaves the bindings of other keys unchanged. -/
theorem rmapFind?_insert_ne (m : RMap) (k v k' : String) (h : k ≠ k') :
    rmapFind? (rmapInsert m k v) k' = rmapFind? m k' := by
  induction m with
  | nil => simp [rmapInsert, rmapFind?, h]
  | cons p rest ih =>
    obtain ⟨k0, v0⟩ := p
    by_cases h0 : k0 = k
    · subst h0
      simp [rmapInsert, rmapFind?, h]
    · by_cases h1 : k0 = k'
      · subst h1
        simp [rmapInsert, rmapFind?, h0, Ne.symm h]
      · simp [rmapInsert, rmapFind?, h0, h1, ih]

/-- Conditional insert at the looked-up key: the optional value wins when
present, else the old binding shows through. -/
theorem rmapFind?_insertOpt_self (m : RMap) (k : String) (o : Option String) :
    rmapFind? (rmapInsertOpt m k o) k = o.or (rmapFind? m k) := by
  cases o with
  | none => simp [rmapInsertOpt, Option.or]
  | some v => simp [rmapInsertOpt, Option.or, rmapFind?_insert_self]

/-- Conditional insert at another key changes nothing observable. -/
theorem rmapFind?_insertOpt_ne (m : RMap) (k : String) (o : Option String) (k' : String)
    (h : k ≠ k') : rmapFind? (rmapInsertOpt m k o) k' = rmapFind? m k' := by
  cases o with
  | none => simp [rmapInsertOpt]
  | some v => simp [rmapInsertOpt, rmapFind?_insert_ne _ _ _ _ h]

/-! ### Claim theorems -/

/-- Claim C1 (counterexample): the database-cluster create acknowledgement
is not made of exactly the fields `name`, `namespace`, `resource_type`: on
the Scenario A request against an echoing orchestrator it also carries a
`message` field. -/
theorem C1_counterexample :
    cnpgCreate cnpgReqA echoCluster
      = .ok (.obj [("message", .str "CNPG cluster created successfully"), ("name", .str "pg1"),
        ("namespace", .str "default"), ("resource_type", .str "cnpg-cluster")])
    ∧ Json.hasField (.obj [("message", .str "CNPG cluster created successfully"), ("name", .str "pg1"),
        ("namespace", .str "default"), ("resource_type", .str "cnpg-cluster")]) "message" = true :=
  ⟨rfl, rfl⟩

/-- Claim C1 (amended): a successful database-cluster create returns the
normalized acknowledgement with exactly the fields `message`, `name`,
`namespace`, `resource_type` (never the raw created object), while a
successful notebook create returns the orchestrator's raw created object
serialized as-is. -/
theorem C1_create_ack (req : CreateClusterRequest) (orchCreate : Cluster → KubeResult Cluster)
    (created : Cluster) (h : orchCreate (cnpgClusterOfRequest req) = .ok created) :
    cnpgCreate req orchCreate = .ok (.obj [("message", .str "CNPG cluster created successfully"),
      ("name", jsonOfOptStr created.metadata.name),
      ("namespace", jsonOfOptStr created.metadata.namespace_),
      ("resource_type", .str "cnpg-cluster")])
    ∧ ∀ (nreq : CreateNotebookRequest) (pvcOutcome : KubeResult Unit)
        (norch : Notebook → KubeResult Notebook) (ncreated : Notebook),
        norch (notebookNew nreq.name (buildNotebookSpec nreq)) = .ok ncreated →
        kubeflowCreate nreq pvcOutcome norch = .ok (notebookToJson ncreated) := by
  constructor
  · unfold cnpgCreate
    rw [h]
  · intro nreq pvcOutcome norch ncreated hn
    have hp : (if nreq.workspace_volume_size.isSome then createWorkspacePvc pvcOutcome
        else .ok ()) = (.ok () : Except AppError Unit) := by
      split
      · cases pvcOutcome <;> rfl
      · rfl
    unfold kubeflowCreate
    rw [hp, hn]

/-- Claim C1 (witness): the amended acknowledgement shapes at concrete
inputs. -/
theorem C1_witness :
    cnpgCreate cnpgReqA echoCluster
      = .ok (.obj [("message", .str "CNPG cluster created successfully"), ("name", .str "pg1"),
        ("namespace", .str "default"), ("resource_type", .str "cnpg-cluster")])
    ∧ kubeflowCreate nbReqA (.ok ()) echoNotebook
      = .ok (.obj [("apiVersion", .str "kubeflow.org/v1"), ("kind", .str "Notebook"),
        ("metadata", .obj [("name", .str "nb1")]),
        ("spec", .obj [("template", .obj [("spec", .obj [("containers", .arr [.obj [("name", .str "notebook"),
          ("image", .str "jupyter-base"),
          ("ports", .arr [.obj [("containerPort", .num 8888), ("name", .str "notebook-port"), ("protocol", .str "TCP")]])]])])])])]) :=
  ⟨(C1_create_ack cnpgReqA echoCluster (cnpgClusterOfRequest cnpgReqA) rfl).1,
   (C1_create_ack cnpgReqA echoCluster (cnpgClusterOfRequest cnpgReqA) rfl).2 nbReqA (.ok ())
     echoNotebook (notebookNew "nb1" (buildNotebookSpec nbReqA)) rfl⟩

/-- Claim C3: the classifier maps an orchestrator status code 404 to the
NotFound response status 404, 400 to 400 (BadRequest), 401 to 401
(Unauthorized), 403 to 403 (Forbidden), 409 to 409 (Conflict), and every
other code to the Internal status 500 with an orchestrator-error message
(the source spells the orchestrator `Kubernetes`). -/
theorem C3_orchestrator_status_classification (m : String) :
    intoResponse (.kube (.api ⟨404, m⟩)) = (404, "Resource not found: " ++ m, "Kubernetes")
    ∧ intoResponse (.kube (.api ⟨400, m⟩)) = (400, "Invalid request: " ++ m, "Kubernetes")
    ∧ intoResponse (.kube (.api ⟨401, m⟩)) = (401, "Unauthorized: " ++ m, "Kubernetes")
    ∧ intoResponse (.kube (.api ⟨403, m⟩)) = (403, "Forbidden: " ++ m, "Kubernetes")
    ∧ intoResponse (.kube (.api ⟨409, m⟩)) = (409, "Conflict: " ++ m, "Kubernetes")
    ∧ ∀ c : Nat, c ≠ 404 → c ≠ 400 → c ≠ 401 → c ≠ 403 → c ≠ 409 →
        intoResponse (.kube (.api ⟨c, m⟩)) = (500, "Kubernetes error: " ++ m, "Kubernetes") := by
  refine ⟨rfl, rfl, rfl, rfl, rfl, ?_⟩
  intro c h1 h2 h3 h4 h5
  simp [intoResponse, h1, h2, h3, h4, h5]

/-- Claim C3 (witness): the classification at a mapped and an unmapped
concrete status code. -/
theorem C3_witness :
    intoResponse (.kube (.api ⟨404, "boom"⟩)) = (404, "Resource not found: boom", "Kubernetes")
    ∧ intoResponse (.kube (.api ⟨502, "boom"⟩)) = (500, "Kubernetes error: boom", "Kubernetes") :=
  ⟨(C3_orchestrator_status_classification "boom").1,
   (C3_orchestrator_status_classification "boom").2.2.2.2.2 502
     (by decide) (by decide) (by decide) (by decide) (by decide)⟩

/-- Claim C4 (counterexample): the notebook get does not translate an
orchestrator not-found into a `NotFound` error: it passes the raw
orchestrator error through. -/
theorem C4_counterexample :
    kubeflowGet nbGet404 = .error (.kube (.api ⟨404, "notebooks.kubeflow.org nb1 not found"⟩))
    ∧ exceptIsNotFound (kubeflowGet nbGet404) = false :=
  ⟨rfl, rfl⟩

/-- Claim C4 (amended): the database-cluster get translates an
orchestrator not-found into `NotFound` with a message naming the resource
and the namespace, while the notebook get passes every orchestrator
error, a 404 included, through unchanged as a `Kube` error. -/
theorem C4_get_notfound_translation (ns name m : String) :
    cnpgGet ns name (.error (.api ⟨404, m⟩)) = .error (.notFound (cnpgNotFoundMsg name ns))
    ∧ cnpgNotFoundMsg name ns
      = "CNPG cluster \x27" ++ name ++ "\x27 not found in namespace \x27" ++ ns ++ "\x27"
    ∧ (∀ e : KubeError, kubeflowGet (.error e) = .error (.kube e))
    ∧ exceptIsNotFound (kubeflowGet (.error (.api ⟨404, m⟩))) = false :=
  ⟨rfl, rfl, fun _ => rfl, rfl⟩

/-- Claim C5 (counterexample): the notebook list returns the
orchestrator's raw list envelope, which carries `metadata`/`items` and
neither a `count` nor a `resources` field. -/
theorem C5_counterexample :
    kubeflowList (.ok nbList0) = .ok (.obj [("metadata", .obj []), ("items", .arr [])])
    ∧ Json.hasField (.obj [("metadata", .obj []), ("items", .arr [])]) "count" = false
    ∧ Json.hasField (.obj [("metadata", .obj []), ("items", .arr [])]) "resources" = false :=
  ⟨rfl, rfl, rfl⟩

/-- Claim C5 (amended): a successful database-cluster list returns the
normalized envelope with exactly the fields `resources`, `count`,
`resource_type` and `count` equal to the number of projected entries,
while a successful notebook list returns the orchestrator's raw list
envelope serialized as-is. -/
theorem C5_list_envelope (items : List Cluster) (l : NotebookList) (e : KubeError) :
    cnpgList (.ok items) = .ok (.obj [("resources", .arr (items.map cnpgListItemJson)),
      ("count", .num (items.map cnpgListItemJson).length), ("resource_type", .str "cnpg-clusters")])
    ∧ kubeflowList (.ok l) = .ok (notebookListToJson l)
    ∧ cnpgList (.error e) = .error (.kube e) := by
  refine ⟨?_, rfl, rfl⟩
  simp [cnpgList]

/-- Claim C6: a delete whose orchestrator outcome is a 404 not-found
surfaces as the NotFound classification for both kinds — the
database-cluster manager raises `NotFound` directly, the notebook manager
passes the 404 through and the classifier maps it to status 404 — and
neither path yields the Internal status 500. -/
theorem C6_delete_missing_resource (ns name m : String) (pvcOutcome : KubeResult Unit) :
    cnpgDelete ns name (.error (.api ⟨404, m⟩)) = .error (.notFound (cnpgNotFoundMsg name ns))
    ∧ intoResponse (.notFound (cnpgNotFoundMsg name ns)) = (404, cnpgNotFoundMsg name ns, "NotFound")
    ∧ kubeflowDelete ns name (.error (.api ⟨404, m⟩)) pvcOutcome = .error (.kube (.api ⟨404, m⟩))
    ∧ intoResponse (.kube (.api ⟨404, m⟩)) = (404, "Resource not found: " ++ m, "Kubernetes")
    ∧ (intoResponse (.notFound (cnpgNotFoundMsg name ns))).1 ≠ 500
    ∧ (intoResponse (.kube (.api ⟨404, m⟩))).1 ≠ 500
    ∧ (intoResponse (.kube (.api ⟨404, m⟩))).2.2 ≠ "Internal" := by
  refine ⟨rfl, rfl, rfl, rfl, by simp [intoResponse], by simp [intoResponse], by simp [intoResponse]⟩

/-- Claim C7: overlaying a database-cluster update request that supplies
only `instances` rewrites the instance count and leaves every other part
of the written-back object — storage, monitoring, postgresql parameters,
bootstrap and metadata — identical. -/
theorem C7_cnpg_update_only_instances (cluster : Cluster) (n : Int) :
    cnpgApplyUpdate cluster { instances := some n, postgresql_parameters := none, monitoring_enabled := none }
        = { cluster with spec.instances := n }
    ∧ (cnpgApplyUpdate cluster { instances := some n, postgresql_parameters := none, monitoring_enabled := none }).spec.storage
        = cluster.spec.storage
    ∧ (cnpgApplyUpdate cluster { instances := some n, postgresql_parameters := none, monitoring_enabled := none }).spec.monitoring
        = cluster.spec.monitoring
    ∧ (cnpgApplyUpdate cluster { instances := some n, postgresql_parameters := none, monitoring_enabled := none }).spec.postgresql.parameters
        = cluster.spec.postgresql.parameters
    ∧ (cnpgApplyUpdate cluster { instances := some n, postgresql_parameters := none, monitoring_enabled := none }).spec.bootstrap
        = cluster.spec.bootstrap
    ∧ (cnpgApplyUpdate cluster { instances := some n, postgresql_parameters := none, monitoring_enabled := none }).spec.instances
        = n :=
  ⟨rfl, rfl, rfl, rfl, rfl, rfl⟩

/-- Claim C8: the built database-cluster spec populates `bootstrap` and
`storage` from their (mandatory) triggering request fields, and the
`monitoring` section exists exactly when the optional monitoring flag is
present — absent flag means no section, not a defaulted one; Scenario A
yields bootstrap and storage present and monitoring absent. -/
theorem C8_create_sections (req : CreateClusterRequest) :
    (clusterSpecOfRequest req).bootstrap
      = some { initdb := some { database := req.database_name, owner := req.database_owner, secret := { name := req.secret_name } } }
    ∧ (clusterSpecOfRequest req).storage = some { size := req.storage_size, storage_class := req.storage_class }
    ∧ (clusterSpecOfRequest req).monitoring
      = req.monitoring_enabled.map (fun enabled => { enable_pod_monitor := enabled, disable_default_queries := false })
    ∧ ((clusterSpecOfRequest req).monitoring = none ↔ req.monitoring_enabled = none)
    ∧ (clusterSpecOfRequest cnpgReqA).bootstrap.isSome = true
    ∧ (clusterSpecOfRequest cnpgReqA).storage.isSome = true
    ∧ (clusterSpecOfRequest cnpgReqA).monitoring = none := by
  refine ⟨rfl, rfl, rfl, ?_, rfl, rfl, rfl⟩
  cases h : req.monitoring_enabled <;> simp [clusterSpecOfRequest, h]

/-- Claim C10: the namespace rule accepts a string exactly when the
resource-name rule does — the dedicated reserved-value branch for `.` and
`..` is unreachable because the resource-name character check already
rejects the dot. -/
theorem C10_namespace_accepts_iff_name (s : String) :
    (validate_namespace s = .ok () ↔ validate_resource_name s = .ok ())
    ∧ validate_resource_name "." = .error (.validation nameFormatMsg)
    ∧ validate_resource_name ".." = .error (.validation nameFormatMsg) := by
  refine ⟨⟨?_, ?_⟩, rfl, rfl⟩
  · intro h
    unfold validate_namespace at h
    by_cases h0 : s = ""
    · rw [if_pos h0] at h
      exact Except.noConfusion h
    · rw [if_neg h0] at h
      cases hr : validate_resource_name s with
      | error e => rw [hr] at h; simp at h
      | ok u => cases u; rfl
  · intro hr
    have h0 : s ≠ "" := by
      intro he
      rw [he] at hr
      exact Except.noConfusion hr
    have hd : ¬(s = "." ∨ s = "..") := by
      rintro (h1 | h1) <;> (rw [h1] at hr; exact Except.noConfusion hr)
    unfold validate_namespace
    rw [if_neg h0, hr]
    simp [hd]

/-! ### Lemmas on the notebook update merge -/

/-- The effective requests map of a container is the `unwrap_or_default`
of its optional resource requests. -/
theorem containerRequestsFind_eq (c : NotebookContainer) (k : String) :
    containerRequestsFind c k = rmapFind? ((c.resources.bind NotebookResources.requests).getD []) k := by
  cases hc : c.resources with
  | none => simp [containerRequestsFind, hc, rmapFind?]
  | some r => cases hr : r.requests <;> simp [containerRequestsFind, hc, hr, rmapFind?]

/-- The effective limits map of a container is the `unwrap_or_default`
of its optional resource limits. -/
theorem containerLimitsFind_eq (c : NotebookContainer) (k : String) :
    containerLimitsFind c k = rmapFind? ((c.resources.bind NotebookResources.limits).getD []) k := by
  cases hc : c.resources with
  | none => simp [containerLimitsFind, hc, rmapFind?]
  | some r => cases hr : r.limits <;> simp [containerLimitsFind, hc, hr, rmapFind?]

/-- Collapsing an empty map to `none` does not change lookups. -/
theorem rmapFind?_emptyToNone (m : RMap) (k : String) :
    (match emptyToNone m with
      | none => (none : Option String)
      | some mm => rmapFind? mm k) = rmapFind? m k := by
  unfold emptyToNone
  by_cases h : m.isEmpty
  · have hm : m = [] := List.isEmpty_iff.mp h
    subst hm
    simp [rmapFind?]
  · simp [h]

/-- An option whose `isSome` is false is `none`. -/
theorem optEqNone {α : Type} {o : Option α} (h : o.isSome = false) : o = none := by
  cases o with
  | none => rfl
  | some v => simp at h

/-- Request-map lookup on an explicitly built container. -/
theorem containerRequestsFind_mk (nm img : String) (rq lm : Option RMap)
    (ev : Option (List NotebookEnvVar)) (vm : Option (List NotebookVolumeMount))
    (ps : Option (List NotebookPort)) (k : String) :
    containerRequestsFind ⟨nm, img, some ⟨rq, lm⟩, ev, vm, ps⟩ k
      = (match rq with | none => (none : Option String) | some m => rmapFind? m k) := rfl

/-- Limit-map lookup on an explicitly built container. -/
theorem containerLimitsFind_mk (nm img : String) (rq lm : Option RMap)
    (ev : Option (List NotebookEnvVar)) (vm : Option (List NotebookVolumeMount))
    (ps : Option (List NotebookPort)) (k : String) :
    containerLimitsFind ⟨nm, img, some ⟨rq, lm⟩, ev, vm, ps⟩ k
      = (match lm with | none => (none : Option String) | some m => rmapFind? m k) := rfl

/-- Lookup in the merged requests map: `cpu` and `memory` take the
request value when present, every other key keeps its old binding. -/
theorem mergedRequests_find (c : NotebookContainer) (req : UpdateNotebookRequest) (k : String) :
    rmapFind? (mergedRequests c req) k =
      (if k = "cpu" then req.cpu_request.or (containerRequestsFind c k)
       else if k = "memory" then req.memory_request.or (containerRequestsFind c k)
       else containerRequestsFind c k) := by
  simp only [containerRequestsFind_eq]
  unfold mergedRequests
  by_cases hk1 : k = "cpu"
  · subst hk1
    rw [rmapFind?_insertOpt_ne _ _ _ _ (by decide : ("memory" : String) ≠ "cpu"),
      rmapFind?_insertOpt_self, if_pos rfl]
  · by_cases hk2 : k = "memory"
    · subst hk2
      rw [rmapFind?_insertOpt_self,
        rmapFind?_insertOpt_ne _ _ _ _ (by decide : ("cpu" : String) ≠ "memory"),
        if_neg (by decide), if_pos rfl]
    · rw [rmapFind?_insertOpt_ne _ _ _ _ (fun h => hk2 h.symm),
        rmapFind?_insertOpt_ne _ _ _ _ (fun h => hk1 h.symm), if_neg hk1, if_neg hk2]

/-- Lookup in the merged limits map: `cpu`, `memory` and
`nvidia.com/gpu` take the request value when present, every other key
keeps its old binding. -/
theorem mergedLimits_find (c : NotebookContainer) (req : UpdateNotebookRequest) (k : String) :
    rmapFind? (mergedLimits c req) k =
      (if k = "cpu" then req.cpu_limit.or (containerLimitsFind c k)
       else if k = "memory" then req.memory_limit.or (containerLimitsFind c k)
       else if k = "nvidia.com/gpu" then req.gpu_limit.or (containerLimitsFind c k)
       else containerLimitsFind c k) := by
  simp only [containerLimitsFind_eq]
  unfold mergedLimits
  by_cases hk1 : k = "cpu"
  · subst hk1
    rw [rmapFind?_insertOpt_ne _ _ _ _ (by decide : ("nvidia.com/gpu" : String) ≠ "cpu"),
      rmapFind?_insertOpt_ne _ _ _ _ (by decide : ("memory" : String) ≠ "cpu"),
      rmapFind?_insertOpt_self, if_pos rfl]
  · by_cases hk2 : k = "memory"
    · subst hk2
      rw [rmapFind?_insertOpt_ne _ _ _ _ (by decide : ("nvidia.com/gpu" : String) ≠ "memory"),
        rmapFind?_insertOpt_self,
        rmapFind?_insertOpt_ne _ _ _ _ (by decide : ("cpu" : String) ≠ "memory"),
        if_neg (by decide), if_pos rfl]
    · by_cases hk3 : k = "nvidia.com/gpu"
      · subst hk3
        rw [rmapFind?_insertOpt_self,
          rmapFind?_insertOpt_ne _ _ _ _ (by decide : ("memory" : String) ≠ "nvidia.com/gpu"),
          rmapFind?_insertOpt_ne _ _ _ _ (by decide : ("cpu" : String) ≠ "nvidia.com/gpu"),
          if_neg (by decide), if_neg (by decide), if_pos rfl]
      · rw [rmapFind?_insertOpt_ne _ _ _ _ (fun h => hk3 h.symm),
          rmapFind?_insertOpt_ne _ _ _ _ (fun h => hk2 h.symm),
          rmapFind?_insertOpt_ne _ _ _ _ (fun h => hk1 h.symm),
          if_neg hk1, if_neg hk2, if_neg hk3]

/-- Changing only the image leaves the merged requests map unchanged. -/
theorem mergedRequests_image (c : NotebookContainer) (img : String) (req : UpdateNotebookRequest) :
    mergedRequests { c with image := img } req = mergedRequests c req := rfl

/-- Changing only the image leaves the merged limits map unchanged. -/
theorem mergedLimits_image (c : NotebookContainer) (img : String) (req : UpdateNotebookRequest) :
    mergedLimits { c with image := img } req = mergedLimits c req := rfl

/-- Request-map lookup on a container whose resources were just set from
the merged maps. -/
theorem containerRequestsFind_set (nm img : String) (ev : Option (List NotebookEnvVar))
    (vm : Option (List NotebookVolumeMount)) (ps : Option (List NotebookPort))
    (rq lm : RMap) (k : String) :
    containerRequestsFind ⟨nm, img, some ⟨emptyToNone rq, emptyToNone lm⟩, ev, vm, ps⟩ k
      = rmapFind? rq k := by
  unfold emptyToNone
  by_cases h : rq.isEmpty
  · have hm : rq = [] := List.isEmpty_iff.mp h
    subst hm
    simp [containerRequestsFind, rmapFind?]
  · simp [containerRequestsFind, h]

/-- Limit-map lookup on a container whose resources were just set from
the merged maps. -/
theorem containerLimitsFind_set (nm img : String) (ev : Option (List NotebookEnvVar))
    (vm : Option (List NotebookVolumeMount)) (ps : Option (List NotebookPort))
    (rq lm : RMap) (k : String) :
    containerLimitsFind ⟨nm, img, some ⟨emptyToNone rq, emptyToNone lm⟩, ev, vm, ps⟩ k
      = rmapFind? lm k := by
  unfold emptyToNone
  by_cases h : lm.isEmpty
  · have hm : lm = [] := List.isEmpty_iff.mp h
    subst hm
    simp [containerLimitsFind, rmapFind?]
  · simp [containerLimitsFind, h]

/-- Key-level behavior of the updated container requests map. -/
theorem updateContainer_requestsFind (c : NotebookContainer) (req : UpdateNotebookRequest) (k : String) :
    containerRequestsFind (updateContainer c req) k =
      (if k = "cpu" then req.cpu_request.or (containerRequestsFind c k)
       else if k = "memory" then req.memory_request.or (containerRequestsFind c k)
       else containerRequestsFind c k) := by
  by_cases hB : (req.cpu_request.isSome || req.cpu_limit.isSome || req.memory_request.isSome
      || req.memory_limit.isSome || req.gpu_limit.isSome) = true
  · have hL : containerRequestsFind (updateContainer c req) k = rmapFind? (mergedRequests c req) k := by
      simp only [updateContainer]
      cases henv : req.environment_variables <;> cases himg : req.image <;>
        simp only [if_pos hB, mergedRequests_image, mergedLimits_image, containerRequestsFind_set]
    rw [hL, mergedRequests_find]
  · have hb : (req.cpu_request.isSome || req.cpu_limit.isSome || req.memory_request.isSome
        || req.memory_limit.isSome || req.gpu_limit.isSome) = false := by
      rw [← Bool.not_eq_true]
      exact hB
    simp only [Bool.or_eq_false_iff] at hb
    obtain ⟨⟨⟨⟨h1, h2⟩, h3⟩, h4⟩, h5⟩ := hb
    have hL : containerRequestsFind (updateContainer c req) k = containerRequestsFind c k := by
      simp only [updateContainer, optEqNone h1, optEqNone h2, optEqNone h3, optEqNone h4, optEqNone h5]
      cases henv : req.environment_variables <;> cases himg : req.image <;> simp [containerRequestsFind]
    rw [hL, optEqNone h1, optEqNone h3]
    simp only [Option.none_or, ite_self]

/-- Key-level behavior of the updated container limits map. -/
theorem updateContainer_limitsFind (c : NotebookContainer) (req : UpdateNotebookRequest) (k : String) :
    containerLimitsFind (updateContainer c req) k =
      (if k = "cpu" then req.cpu_limit.or (containerLimitsFind c k)
       else if k = "memory" then req.memory_limit.or (containerLimitsFind c k)
       else if k = "nvidia.com/gpu" then req.gpu_limit.or (containerLimitsFind c k)
       else containerLimitsFind c k) := by
  by_cases hB : (req.cpu_request.isSome || req.cpu_limit.isSome || req.memory_request.isSome
      || req.memory_limit.isSome || req.gpu_limit.isSome) = true
  · have hL : containerLimitsFind (updateContainer c req) k = rmapFind? (mergedLimits c req) k := by
      simp only [updateContainer]
      cases henv : req.environment_variables <;> cases himg : req.image <;>
        simp only [if_pos hB, mergedRequests_image, mergedLimits_image, containerLimitsFind_set]
    rw [hL, mergedLimits_find]
  · have hb : (req.cpu_request.isSome || req.cpu_limit.isSome || req.memory_request.isSome
        || req.memory_limit.isSome || req.gpu_limit.isSome) = false := by
      rw [← Bool.not_eq_true]
      exact hB
    simp only [Bool.or_eq_false_iff] at hb
    obtain ⟨⟨⟨⟨h1, h2⟩, h3⟩, h4⟩, h5⟩ := hb
    have hL : containerLimitsFind (updateContainer c req) k = containerLimitsFind c k := by
      simp only [updateContainer, optEqNone h1, optEqNone h2, optEqNone h3, optEqNone h4, optEqNone h5]
      cases henv : req.environment_variables <;> cases himg : req.image <;> simp [containerLimitsFind]
    rw [hL, optEqNone h2, optEqNone h4, optEqNone h5]
    simp only [Option.none_or, ite_self]

/-- The updated container image: replaced wholesale when present. -/
theorem updateContainer_image (c : NotebookContainer) (req : UpdateNotebookRequest) :
    (updateContainer c req).image = req.image.getD c.image := by
  cases henv : req.environment_variables <;> cases himg : req.image <;>
    by_cases hB : (req.cpu_request.isSome || req.cpu_limit.isSome || req.memory_request.isSome
      || req.memory_limit.isSome || req.gpu_limit.isSome) = true <;>
    simp [updateContainer, henv, himg, hB]

/-- The updated container env list: replaced wholesale when present,
untouched otherwise. -/
theorem updateContainer_env (c : NotebookContainer) (req : UpdateNotebookRequest) :
    (updateContainer c req).env
      = (match req.environment_variables with
         | some m => some (envVarsOfMap m)
         | none => c.env) := by
  cases henv : req.environment_variables <;> cases himg : req.image <;>
    by_cases hB : (req.cpu_request.isSome || req.cpu_limit.isSome || req.memory_request.isSome
      || req.memory_limit.isSome || req.gpu_limit.isSome) = true <;>
    simp [updateContainer, henv, himg, hB]

/-- The updated container name is untouched. -/
theorem updateContainer_name (c : NotebookContainer) (req : UpdateNotebookRequest) :
    (updateContainer c req).name = c.name := by
  cases henv : req.environment_variables <;> cases himg : req.image <;>
    by_cases hB : (req.cpu_request.isSome || req.cpu_limit.isSome || req.memory_request.isSome
      || req.memory_limit.isSome || req.gpu_limit.isSome) = true <;>
    simp [updateContainer, henv, himg, hB]

/-- The updated container volume mounts are untouched. -/
theorem updateContainer_volumeMounts (c : NotebookContainer) (req : UpdateNotebookRequest) :
    (updateContainer c req).volume_mounts = c.volume_mounts := by
  cases henv : req.environment_variables <;> cases himg : req.image <;>
    by_cases hB : (req.cpu_request.isSome || req.cpu_limit.isSome || req.memory_request.isSome
      || req.memory_limit.isSome || req.gpu_limit.isSome) = true <;>
    simp [updateContainer, henv, himg, hB]

/-- The updated container ports are untouched. -/
theorem updateContainer_ports (c : NotebookContainer) (req : UpdateNotebookRequest) :
    (updateContainer c req).ports = c.ports := by
  cases henv : req.environment_variables <;> cases himg : req.image <;>
    by_cases hB : (req.cpu_request.isSome || req.cpu_limit.isSome || req.memory_request.isSome
      || req.memory_limit.isSome || req.gpu_limit.isSome) = true <;>
    simp [updateContainer, henv, himg, hB]

/-- Claim C2: the update merge overlays only the fields present in the
request on the primary container — the image is replaced wholesale when
present, the request/limit maps are merged key-by-key (existing keys not
mentioned are preserved, mentioned keys overwritten), the env list is
replaced as a whole when present — and every other part of the spec is
untouched. -/
theorem C2_notebook_update_merge (spec : NotebookSpec) (req : UpdateNotebookRequest)
    (c : NotebookContainer) (h : spec.template.spec.containers.head? = some c) :
    (buildUpdateSpec spec req).template.spec.containers.head? = some (updateContainer c req)
    ∧ (updateContainer c req).image = req.image.getD c.image
    ∧ (∀ m, req.environment_variables = some m → (updateContainer c req).env = some (envVarsOfMap m))
    ∧ (req.environment_variables = none → (updateContainer c req).env = c.env)
    ∧ (∀ k, containerRequestsFind (updateContainer c req) k =
        (if k = "cpu" then req.cpu_request.or (containerRequestsFind c k)
         else if k = "memory" then req.memory_request.or (containerRequestsFind c k)
         else containerRequestsFind c k))
    ∧ (∀ k, containerLimitsFind (updateContainer c req) k =
        (if k = "cpu" then req.cpu_limit.or (containerLimitsFind c k)
         else if k = "memory" then req.memory_limit.or (containerLimitsFind c k)
         else if k = "nvidia.com/gpu" then req.gpu_limit.or (containerLimitsFind c k)
         else containerLimitsFind c k))
    ∧ (updateContainer c req).name = c.name
    ∧ (updateContainer c req).volume_mounts = c.volume_mounts
    ∧ (updateContainer c req).ports = c.ports
    ∧ (buildUpdateSpec spec req).template.spec.containers.tail = spec.template.spec.containers.tail
    ∧ (buildUpdateSpec spec req).template.spec.volumes = spec.template.spec.volumes
    ∧ (buildUpdateSpec spec req).template.spec.service_account_name = spec.template.spec.service_account_name := by
  cases hc : spec.template.spec.containers with
  | nil =>
    rw [hc] at h
    exact Option.noConfusion h
  | cons c0 rest =>
    rw [hc] at h
    have hc0 : c0 = c := by simpa using h
    subst hc0
    refine ⟨?_, updateContainer_image _ _, ?_, ?_, updateContainer_requestsFind _ _,
      updateContainer_limitsFind _ _, updateContainer_name _ _, updateContainer_volumeMounts _ _,
      updateContainer_ports _ _, ?_, ?_, ?_⟩
    · simp [buildUpdateSpec, hc]
    · intro m hm
      simp [updateContainer_env, hm]
    · intro hm
      simp [updateContainer_env, hm]
    · simp [buildUpdateSpec, hc]
    · simp [buildUpdateSpec, hc]
    · simp [buildUpdateSpec, hc]

/-- Claim C2 (witness): Scenario C — an update supplying only
`memory_limit` overwrites the memory limit and leaves the existing cpu
keys of both maps and the image untouched. -/
theorem C2_witness :
    containerRequestsFind (updateContainer nbContC nbUpdC) "cpu" = some "500m"
    ∧ containerLimitsFind (updateContainer nbContC nbUpdC) "cpu" = some "1"
    ∧ containerLimitsFind (updateContainer nbContC nbUpdC) "memory" = some "4Gi"
    ∧ (updateContainer nbContC nbUpdC).image = "img1" :=
  ⟨(C2_notebook_update_merge nbSpecC nbUpdC nbContC rfl).2.2.2.2.1 "cpu",
   (C2_notebook_update_merge nbSpecC nbUpdC nbContC rfl).2.2.2.2.2.1 "cpu",
   (C2_notebook_update_merge nbSpecC nbUpdC nbContC rfl).2.2.2.2.2.1 "memory",
   (C2_notebook_update_merge nbSpecC nbUpdC nbContC rfl).2.1⟩

/-! ### Lemmas on the memory/storage suffix rule -/

/-- Within the recognized suffix list, one suffix of another is it. -/
theorem validSuffix_suffix_eq :
    ∀ a ∈ validSuffixes, ∀ b ∈ validSuffixes, a.data <:+ b.data → a = b := by decide

/-- Every recognized suffix is non-empty. -/
theorem validSuffix_ne_nil : ∀ a ∈ validSuffixes, a.data ≠ [] := by decide

/-- A string ends with at most one recognized suffix: the two-character
suffixes all end in `i` and the one-character ones are pairwise distinct
letters other than `i`. -/
theorem validSuffix_unique {l : List Char} {a b : String} (ha : a ∈ validSuffixes)
    (hb : b ∈ validSuffixes) (hal : a.data <:+ l) (hbl : b.data <:+ l) : a = b := by
  rcases List.suffix_or_suffix_of_suffix hal hbl with h | h
  · exact validSuffix_suffix_eq a ha b hb h
  · exact (validSuffix_suffix_eq b hb a ha h).symm

/-- `ends_with` holds on an appended suffix. -/
theorem endsWith_append (n suf : String) : endsWithSuffix (n ++ suf) suf = true := by
  unfold endsWithSuffix
  exact List.isSuffixOf_iff_suffix.mpr ⟨n.data, by simp⟩

/-- `strip_suffix` undoes an append. -/
theorem stripSuffix_append (n suf : String) : stripSuffixOpt (n ++ suf) suf = some n := by
  unfold stripSuffixOpt
  have hsfx : suf.data <:+ (n ++ suf).data := ⟨n.data, by simp⟩
  rw [if_pos (List.isSuffixOf_iff_suffix.mpr hsfx)]
  simp [Nat.add_sub_cancel, List.take_left]

/-- The `find_map` over `strip_suffix` recovers exactly the numeric
prefix when the string is a prefix plus a recognized suffix: the unique
matching suffix is the appended one. -/
theorem findSome_strip_eq (n suf : String) (hmem : suf ∈ validSuffixes) :
    validSuffixes.findSome? (fun x => stripSuffixOpt (n ++ suf) x) = some n := by
  cases heq : validSuffixes.findSome? (fun x => stripSuffixOpt (n ++ suf) x) with
  | none =>
    rw [List.findSome?_eq_none_iff] at heq
    have hx := heq suf hmem
    rw [stripSuffix_append] at hx
    exact Option.noConfusion hx
  | some np =>
    obtain ⟨suf2, hmem2, hstrip2⟩ := List.exists_of_findSome?_eq_some heq
    have hsfx2 : suf2.data <:+ (n ++ suf).data := by
      by_cases hb : suf2.data.isSuffixOf (n ++ suf).data
      · exact List.isSuffixOf_iff_suffix.mp hb
      · unfold stripSuffixOpt at hstrip2
        rw [if_neg hb] at hstrip2
        exact Option.noConfusion hstrip2
    have hsfx : suf.data <:+ (n ++ suf).data := ⟨n.data, by simp⟩
    have h22 : suf2 = suf := validSuffix_unique hmem2 hmem hsfx2 hsfx
    subst h22
    rw [stripSuffix_append] at hstrip2
    exact hstrip2.symm

/-- Claim C9: a memory/storage string validates exactly when it is a
numeric prefix (in the float-parser grammar) followed by one of the
recognized suffixes; the storage rule is literally the memory rule; and
`2GB` is rejected with a Validation error. -/
theorem C9_memory_suffix_rule (s : String) :
    (validate_memory_resource s = .ok () ↔ memoryStringWellFormed s)
    ∧ (∀ t : String, validate_storage_size t = validate_memory_resource t)
    ∧ validate_memory_resource "2GB"
      = .error (.validation "Invalid memory format. Use formats like \x271Gi\x27, \x27500Mi\x27, \x272G\x27") := by
  refine ⟨⟨?_, ?_⟩, fun t => rfl, rfl⟩
  · intro h
    unfold validate_memory_resource at h
    split at h
    · exact Except.noConfusion h
    · split at h
      · exact Except.noConfusion h
      · split at h
        · exact Except.noConfusion h
        · rename_i np heq
          split at h
          · rename_i hparse
            obtain ⟨suf, hmem, hstrip⟩ := List.exists_of_findSome?_eq_some heq
            have hb : suf.data.isSuffixOf s.data = true := by
              by_cases hbb : suf.data.isSuffixOf s.data
              · exact hbb
              · unfold stripSuffixOpt at hstrip
                rw [if_neg hbb] at hstrip
                exact Option.noConfusion hstrip
            obtain ⟨t, ht⟩ := List.isSuffixOf_iff_suffix.mp hb
            unfold stripSuffixOpt at hstrip
            rw [if_pos hb] at hstrip
            injection hstrip with hinj
            refine ⟨np, suf, hmem, hparse, ?_⟩
            apply String.ext
            rw [String.data_append, ← hinj, ← ht]
            simp
          · exact Except.noConfusion h
  · rintro ⟨n, suf, hmem, hparse, rfl⟩
    have hanyTrue : (validSuffixes.any fun x => endsWithSuffix (n ++ suf) x) = true :=
      List.any_eq_true.mpr ⟨suf, hmem, endsWith_append n suf⟩
    unfold validate_memory_resource
    rw [if_neg ?hne, if_neg ?hany]
    case hne =>
      intro hcon
      have hd : (n ++ suf).data = [] := by rw [hcon]
      rw [String.data_append] at hd
      exact validSuffix_ne_nil suf hmem (List.append_eq_nil.mp hd).2
    case hany => simp [hanyTrue]
    rw [findSome_strip_eq n suf hmem]
    simp [hparse]

end Spec2Proof
